import Mathlib

/-!
Shallow embedding of the fixed 3-level task-DAG pipeline of this
repository and proofs of the specification's claims about it.

The repository contains several redundant variants of the same core.
Two of them decide the claims below and are both embedded here:

* namespace `TaskDag` — the failure-injection variant (the translation
  unit embedded in the repository README: `FailureConfig`,
  `check_failure`, `Task1..Task6`, `TaskDAGExecutor`).  Doubles are
  modelled as exact rationals; the shared `std::mt19937` generator plus
  `std::uniform_real_distribution<>(0,1)` is modelled as a list of
  pending uniform draws in `[0,1)` that is threaded through the
  computation in task-submission order (Task1, Task2, Task3, Task4,
  Task5, Task6).  The claims settled against this model either disable
  random failures (so no draw is ever consumed and the threading order
  is irrelevant) or quantify over all draw sequences.
* namespace `FlexDag` — the type-flexible variant (the second
  translation unit of `src/task_dag_demo.cpp`), whose Level-2/3 tasks
  validate their upstream inputs; its `std::variant` of typed results
  becomes an inductive value type, and `std::get` on the wrong
  alternative (C++ `std::bad_variant_access`) becomes a dedicated
  failure constructor.

The level join (`unifex::when_all` + `sync_wait`) is modelled as:
construct the level aggregate when every task of the level succeeded,
otherwise surface the first error in submission order.  No claim proved
below depends on which of several simultaneous errors is surfaced.
-/

namespace TaskDag

/-- Pending uniform draws in `[0,1)` from the shared random source.
An empty list draws `0`. -/
def Rand : Type := List ℚ

/-- Error taxonomy of the failure-injection variant: the three
exception classes `DataValidationError`, `ResourceExhaustionError` and
the base `TaskExecutionError` (the generic kind). -/
inductive ErrorKind
  | DataValidation
  | ResourceExhaustion
  | TaskExecution
deriving DecidableEq

/-- A thrown task error: exception class (kind), the failing task's
name, and the reason text stored by the `TaskExecutionError` base. -/
structure TaskError where
  kind : ErrorKind
  task_name : String
  reason : String
deriving DecidableEq

/-- Constructor of the C++ class `DataValidationError`, which forwards
`"Invalid data: " + invalid_data` as the base-class reason. -/
def DataValidationError (task_name invalid_data : String) : TaskError :=
  ⟨ErrorKind.DataValidation, task_name, "Invalid data: " ++ invalid_data⟩

/-- Constructor of the C++ class `ResourceExhaustionError`, which
forwards `"Resource exhausted: " + resource` as the base-class reason. -/
def ResourceExhaustionError (task_name resource : String) : TaskError :=
  ⟨ErrorKind.ResourceExhaustion, task_name, "Resource exhausted: " ++ resource⟩

/-- Constructor of the base C++ class `TaskExecutionError` (generic
kind) thrown directly by Task3 and Task6. -/
def TaskExecutionError (task_name reason : String) : TaskError :=
  ⟨ErrorKind.TaskExecution, task_name, reason⟩

/-- Result record of the failure-injection variant: a double value,
a description and provenance text. -/
structure TaskResult where
  value : ℚ
  description : String
  source_info : String
deriving DecidableEq

structure Level1Results where
  task1_result : TaskResult
  task2_result : TaskResult
  task3_result : TaskResult
deriving DecidableEq

structure Level2Results where
  task4_result : TaskResult
  task5_result : TaskResult
deriving DecidableEq

/-- `FailureConfig` from the source: one forced-failure flag per task,
a switch for random failures, and the failure probability (0.2 by
default). -/
structure FailureConfig where
  task1_fail : Bool := false
  task2_fail : Bool := false
  task3_fail : Bool := false
  task4_fail : Bool := false
  task5_fail : Bool := false
  task6_fail : Bool := false
  enable_random_failures : Bool := false
  failure_probability : ℚ := 0.2
deriving DecidableEq

/-- One draw of `dis(gen)`: the next pending uniform value, consuming
it from the stream. -/
def nextDraw (gen : Rand) : ℚ × Rand :=
  match gen with
  | [] => (0, [])
  | d :: rest => (d, rest)

/-- `ITask::check_failure` without the virtual throw: returns whether
the task must fail, together with the generator state afterwards.
C++ short-circuit evaluation of
`should_fail || (config.enable_random_failures && dis(gen) < config.failure_probability)`
means `dis(gen)` is evaluated (a draw is consumed) only when
`should_fail` is false and random failures are enabled.  Each task
variant turns a `true` answer into its own specific error, modelling
the virtual `throw_specific_error(task_name)`. -/
def check_failure (should_fail : Bool) (config : FailureConfig) (gen : Rand) :
    Bool × Rand :=
  if should_fail then (true, gen)
  else if config.enable_random_failures then
    let d := nextDraw gen
    (decide (d.1 < config.failure_probability), d.2)
  else (false, gen)

/-- The spec's view of `config.forced_failure` as a set of task ids:
membership of a task name is that task's forced-failure flag. -/
def forced_failure_contains (config : FailureConfig) (task_name : String) : Bool :=
  if task_name = "Task1" then config.task1_fail
  else if task_name = "Task2" then config.task2_fail
  else if task_name = "Task3" then config.task3_fail
  else if task_name = "Task4" then config.task4_fail
  else if task_name = "Task5" then config.task5_fail
  else if task_name = "Task6" then config.task6_fail
  else false

/-- The FailureInjector contract `should_fail(task_name, config, gen)`
as realised by the source: each task passes its own forced flag to
`check_failure`. -/
def should_fail (task_name : String) (config : FailureConfig) (gen : Rand) :
    Bool × Rand :=
  check_failure (forced_failure_contains config task_name) config gen

/-- `Task1::execute`: fails via the injector with a `DataValidationError`,
otherwise returns 42.5 from data source A. -/
def Task1.execute (config : FailureConfig) (gen : Rand) :
    Except TaskError TaskResult × Rand :=
  let fr := check_failure config.task1_fail config gen
  if fr.1 then
    (Except.error (DataValidationError "Task1" "DataSourceA contains corrupted records"), fr.2)
  else
    (Except.ok ⟨42.5, "DataSourceA", "Primary data repository"⟩, fr.2)

/-- `Task2::execute`: fails via the injector with a
`ResourceExhaustionError`, otherwise returns 73.2 from data source B. -/
def Task2.execute (config : FailureConfig) (gen : Rand) :
    Except TaskError TaskResult × Rand :=
  let fr := check_failure config.task2_fail config gen
  if fr.1 then
    (Except.error (ResourceExhaustionError "Task2" "Database connection pool exhausted"), fr.2)
  else
    (Except.ok ⟨73.2, "DataSourceB", "Secondary data warehouse"⟩, fr.2)

/-- `Task3::execute`: fails via the injector with a generic
`TaskExecutionError`, otherwise returns 91.8 from data source C. -/
def Task3.execute (config : FailureConfig) (gen : Rand) :
    Except TaskError TaskResult × Rand :=
  let fr := check_failure config.task3_fail config gen
  if fr.1 then
    (Except.error (TaskExecutionError "Task3" "Network timeout while fetching external API data"), fr.2)
  else
    (Except.ok ⟨91.8, "DataSourceC", "External API endpoint"⟩, fr.2)

/-- `Task4::execute`: fails via the injector with a `DataValidationError`,
otherwise combines the Task1 and Task2 values by addition. -/
def Task4.execute (level1 : Level1Results) (config : FailureConfig) (gen : Rand) :
    Except TaskError TaskResult × Rand :=
  let fr := check_failure config.task4_fail config gen
  if fr.1 then
    (Except.error (DataValidationError "Task4"
        "Result validation failed - combined value out of expected range"), fr.2)
  else
    (Except.ok ⟨level1.task1_result.value + level1.task2_result.value, "CombinedAB",
        "Merged " ++ level1.task1_result.description ++ " + "
          ++ level1.task2_result.description⟩, fr.2)

/-- `Task5::execute`: fails via the injector with a
`ResourceExhaustionError`, otherwise averages the three Level-1 values. -/
def Task5.execute (level1 : Level1Results) (config : FailureConfig) (gen : Rand) :
    Except TaskError TaskResult × Rand :=
  let fr := check_failure config.task5_fail config gen
  if fr.1 then
    (Except.error (ResourceExhaustionError "Task5"
        "Insufficient memory for aggregation operation"), fr.2)
  else
    (Except.ok ⟨(level1.task1_result.value + level1.task2_result.value
          + level1.task3_result.value) / 3,
        "AggregatedABC", "Average of all three data sources"⟩, fr.2)

/-- `Task6::execute`: fails via the injector with a generic
`TaskExecutionError`, otherwise computes the weighted final score. -/
def Task6.execute (level2 : Level2Results) (config : FailureConfig) (gen : Rand) :
    Except TaskError TaskResult × Rand :=
  let fr := check_failure config.task6_fail config gen
  if fr.1 then
    (Except.error (TaskExecutionError "Task6"
        "Final validation failed - output format incompatible"), fr.2)
  else
    (Except.ok ⟨level2.task4_result.value * 0.6 + level2.task5_result.value * 0.4,
        "FinalScore", "Weighted combination of Level 2 results"⟩, fr.2)

/-- Names of the tasks submitted to the scheduler for Level 1. -/
def level1_task_names : List String := ["Task1", "Task2", "Task3"]

/-- Names of the tasks submitted to the scheduler for Level 2. -/
def level2_task_names : List String := ["Task4", "Task5"]

/-- Names of the tasks submitted to the scheduler for Level 3. -/
def level3_task_names : List String := ["Task6"]

/-- The Level-1 join: `sync_wait(when_all(task1, task2, task3))` followed
by `unwrap_when_all` and construction of `Level1Results`.  The aggregate
is built only when all three tasks succeeded; otherwise the first error
in submission order is surfaced. -/
def joinLevel1 :
    Except TaskError TaskResult → Except TaskError TaskResult →
    Except TaskError TaskResult → Except TaskError Level1Results
  | Except.ok a, Except.ok b, Except.ok c => Except.ok ⟨a, b, c⟩
  | Except.error e, _, _ => Except.error e
  | Except.ok _, Except.error e, _ => Except.error e
  | Except.ok _, Except.ok _, Except.error e => Except.error e

/-- The Level-2 join, analogous to `joinLevel1`. -/
def joinLevel2 :
    Except TaskError TaskResult → Except TaskError TaskResult →
    Except TaskError Level2Results
  | Except.ok a, Except.ok b => Except.ok ⟨a, b⟩
  | Except.error e, _ => Except.error e
  | Except.ok _, Except.error e => Except.error e

/-- `TaskDAGExecutor::execute_level1`: run the three independent tasks
(the shared generator is threaded in submission order) and join. -/
def execute_level1 (config : FailureConfig) (gen : Rand) :
    Except TaskError Level1Results × Rand :=
  let p1 := Task1.execute config gen
  let p2 := Task2.execute config p1.2
  let p3 := Task3.execute config p2.2
  (joinLevel1 p1.1 p2.1 p3.1, p3.2)

/-- `TaskDAGExecutor::execute_level2`: run Task4 and Task5 on the
Level-1 results and join. -/
def execute_level2 (level1 : Level1Results) (config : FailureConfig) (gen : Rand) :
    Except TaskError Level2Results × Rand :=
  let p4 := Task4.execute level1 config gen
  let p5 := Task5.execute level1 config p4.2
  (joinLevel2 p4.1 p5.1, p5.2)

/-- Snapshot of the executor's result members after a successful run. -/
structure PipelineState where
  level1 : Level1Results
  level2 : Level2Results
  final : TaskResult
deriving DecidableEq

/-- `TaskDAGExecutor::execute_pipeline`: the three levels in sequence;
a failing level aborts the run before any later-level task is created
or submitted.  Besides the outcome and the generator state, the model
returns the list of task names that were submitted to the scheduler
(the spec's submission-counter observable). -/
def execute_pipeline (config : FailureConfig) (gen : Rand) :
    Except TaskError PipelineState × Rand × List String :=
  let p1 := execute_level1 config gen
  match p1.1 with
  | Except.error e => (Except.error e, p1.2, level1_task_names)
  | Except.ok lv1 =>
    let p2 := execute_level2 lv1 config p1.2
    match p2.1 with
    | Except.error e => (Except.error e, p2.2, level1_task_names ++ level2_task_names)
    | Except.ok lv2 =>
      let p3 := Task6.execute lv2 config p2.2
      match p3.1 with
      | Except.error e =>
        (Except.error e, p3.2, level1_task_names ++ level2_task_names ++ level3_task_names)
      | Except.ok fin =>
        (Except.ok ⟨lv1, lv2, fin⟩, p3.2,
          level1_task_names ++ level2_task_names ++ level3_task_names)

/-- The public operation `run()`: the final TaskResult on success, the
first error otherwise. -/
def run (config : FailureConfig) (gen : Rand) : Except TaskError TaskResult :=
  (execute_pipeline config gen).1.map PipelineState.final

/-- The final value produced by a run, when the run succeeds. -/
def runFinalValue (config : FailureConfig) (gen : Rand) : Option ℚ :=
  match (execute_pipeline config gen).1 with
  | Except.ok st => some st.final.value
  | Except.error _ => none

/-- Whether an outcome is a success. -/
def isOkE {α : Type} : Except TaskError α → Bool
  | Except.ok _ => true
  | Except.error _ => false

end TaskDag

namespace FlexDag

/-- The closed sum of payload types the type-flexible variant stores in
its `AnyTaskResult` variant: double, string or int. -/
inductive FlexValue
  | d (x : ℚ)
  | s (x : String)
  | i (x : Int)
deriving DecidableEq

/-- One `TaskResult<T>` object of the type-flexible variant, with its
payload, description and source info. -/
structure AnyTaskResult where
  value : FlexValue
  description : String
  source_info : String
deriving DecidableEq

/-- `get_value_as<double>`: `std::get` on the variant, which raises
`std::bad_variant_access` when the stored alternative differs. -/
def get_double : AnyTaskResult → Option ℚ
  | ⟨FlexValue.d x, _, _⟩ => some x
  | _ => none

/-- `get_value_as<std::string>`. -/
def get_string : AnyTaskResult → Option String
  | ⟨FlexValue.s x, _, _⟩ => some x
  | _ => none

/-- `get_value_as<int>`. -/
def get_int : AnyTaskResult → Option Int
  | ⟨FlexValue.i x, _, _⟩ => some x
  | _ => none

/-- The only exception class of the type-flexible variant,
`TaskExecutionError(task_name, reason)`. -/
structure FlexTaskError where
  task_name : String
  reason : String
deriving DecidableEq

/-- Under the spec's error taxonomy the base class `TaskExecutionError`
is the Generic/TaskExecution kind; the type-flexible variant defines no
other class, so every error it throws has that kind. -/
def FlexTaskError.kind (_ : FlexTaskError) : TaskDag.ErrorKind :=
  TaskDag.ErrorKind.TaskExecution

/-- How an execution of a type-flexible task can fail: a thrown
`TaskExecutionError`, or `std::bad_variant_access` from extracting the
wrong alternative of an upstream result. -/
inductive FlexFailure
  | err (e : FlexTaskError)
  | badVariantAccess
deriving DecidableEq

structure Level1Results where
  task1_result : AnyTaskResult
  task2_result : AnyTaskResult
  task3_result : AnyTaskResult
deriving DecidableEq

structure Level2Results where
  task4_result : AnyTaskResult
  task5_result : AnyTaskResult
deriving DecidableEq

/-- `Task4::execute` of the type-flexible variant: extract the double
from Task1 and the string from Task2, validate them (`value1 <= 0` and
emptiness checks), then combine using the fixed stand-in conversion
constant 73.2. -/
def Task4.execute (level1 : Level1Results) : Except FlexFailure AnyTaskResult :=
  match get_double level1.task1_result, get_string level1.task2_result with
  | some value1, some value2 =>
    if value1 ≤ 0 then
      Except.error (FlexFailure.err ⟨"Task4", "Invalid numeric input from Task1"⟩)
    else if value2.isEmpty then
      Except.error (FlexFailure.err ⟨"Task4", "Invalid string input from Task2"⟩)
    else
      let numeric_part : ℚ := 73.2
      Except.ok ⟨FlexValue.d (value1 + numeric_part), "CombinedAB",
        "Merged DataSourceA(double) + DataSourceB(string->double)"⟩
  | _, _ => Except.error FlexFailure.badVariantAccess

/-- `Task5::execute` of the type-flexible variant: extract all three
Level-1 values, validate (`value1 <= 0 || value3 <= 0`, emptiness),
then average using the fixed stand-in conversion constant 73.2. -/
def Task5.execute (level1 : Level1Results) : Except FlexFailure AnyTaskResult :=
  match get_double level1.task1_result, get_string level1.task2_result,
      get_int level1.task3_result with
  | some value1, some value2, some value3 =>
    if value1 ≤ 0 ∨ value3 ≤ 0 then
      Except.error (FlexFailure.err ⟨"Task5", "Invalid numeric inputs for aggregation"⟩)
    else if value2.isEmpty then
      Except.error (FlexFailure.err ⟨"Task5", "Invalid string input for aggregation"⟩)
    else
      let numeric_from_string : ℚ := 73.2
      Except.ok ⟨FlexValue.d ((value1 + numeric_from_string + (value3 : ℚ)) / 3),
        "AggregatedABC", "Average of double + string(->double) + int"⟩
  | _, _, _ => Except.error FlexFailure.badVariantAccess

/-- `Task6::execute` of the type-flexible variant: extract the two
Level-2 doubles, validate (`value4 <= 0 || value5 <= 0`), then compute
the weighted final score. -/
def Task6.execute (level2 : Level2Results) : Except FlexFailure AnyTaskResult :=
  match get_double level2.task4_result, get_double level2.task5_result with
  | some value4, some value5 =>
    if value4 ≤ 0 ∨ value5 ≤ 0 then
      Except.error (FlexFailure.err ⟨"Task6", "Invalid input values for final computation"⟩)
    else
      Except.ok ⟨FlexValue.d (value4 * 0.6 + value5 * 0.4), "FinalScore",
        "Weighted combination of Level 2 results"⟩
  | _, _ => Except.error FlexFailure.badVariantAccess

end FlexDag

namespace TaskDag

/-- All task names in submission order for a full run. -/
def all_task_names : List String :=
  level1_task_names ++ level2_task_names ++ level3_task_names

/-- The failure-free configuration: the default `FailureConfig` of
`main` (all forced flags false, random failures disabled). -/
def default_config : FailureConfig :=
  ⟨false, false, false, false, false, false, false, 0.2⟩

/-- The state an all-successful run leaves in the executor, written
with the tasks' arithmetic as the source computes it. -/
def clean_run_state : PipelineState :=
  ⟨⟨⟨42.5, "DataSourceA", "Primary data repository"⟩,
    ⟨73.2, "DataSourceB", "Secondary data warehouse"⟩,
    ⟨91.8, "DataSourceC", "External API endpoint"⟩⟩,
   ⟨⟨42.5 + 73.2, "CombinedAB", "Merged " ++ "DataSourceA" ++ " + " ++ "DataSourceB"⟩,
    ⟨(42.5 + 73.2 + 91.8) / 3, "AggregatedABC", "Average of all three data sources"⟩⟩,
   ⟨(42.5 + 73.2) * 0.6 + ((42.5 + 73.2 + 91.8) / 3) * 0.4,
    "FinalScore", "Weighted combination of Level 2 results"⟩⟩

lemma check_failure_off (config : FailureConfig) (gen : Rand)
    (hr : config.enable_random_failures = false) :
    check_failure false config gen = (false, gen) := by
  simp [check_failure, hr]

lemma execute_pipeline_clean (config : FailureConfig) (gen : Rand)
    (h1 : config.task1_fail = false) (h2 : config.task2_fail = false)
    (h3 : config.task3_fail = false) (h4 : config.task4_fail = false)
    (h5 : config.task5_fail = false) (h6 : config.task6_fail = false)
    (hr : config.enable_random_failures = false) :
    execute_pipeline config gen = (Except.ok clean_run_state, gen, all_task_names) := by
  simp [execute_pipeline, execute_level1, execute_level2,
    Task1.execute, Task2.execute, Task3.execute, Task4.execute, Task5.execute,
    Task6.execute, joinLevel1, joinLevel2, check_failure,
    h1, h2, h3, h4, h5, h6, hr, clean_run_state, all_task_names,
    level1_task_names, level2_task_names, level3_task_names]

/-- C1: for every run in which no forced failure is configured and
random failures are disabled, `run()` succeeds and the final result
value equals `0.6*Task4Value + 0.4*Task5Value`, where
`Task4Value = Task1Value + Task2Value` and
`Task5Value = mean(Task1Value, Task2Value, Task3Value)`. -/
theorem c1_clean_run_weighted_final (config : FailureConfig) (gen : Rand)
    (h1 : config.task1_fail = false) (h2 : config.task2_fail = false)
    (h3 : config.task3_fail = false) (h4 : config.task4_fail = false)
    (h5 : config.task5_fail = false) (h6 : config.task6_fail = false)
    (hr : config.enable_random_failures = false) :
    ∃ st : PipelineState,
      (execute_pipeline config gen).1 = Except.ok st ∧
      run config gen = Except.ok st.final ∧
      st.final.value = 0.6 * st.level2.task4_result.value
        + 0.4 * st.level2.task5_result.value ∧
      st.level2.task4_result.value
        = st.level1.task1_result.value + st.level1.task2_result.value ∧
      st.level2.task5_result.value
        = (st.level1.task1_result.value + st.level1.task2_result.value
            + st.level1.task3_result.value) / 3 := by
  have hp := execute_pipeline_clean config gen h1 h2 h3 h4 h5 h6 hr
  refine ⟨clean_run_state, ?_, ?_, ?_, ?_, ?_⟩
  · rw [hp]
  · simp [run, hp, Except.map]
  · norm_num [clean_run_state]
  · norm_num [clean_run_state]
  · norm_num [clean_run_state]

/-- Witness for C1 at the default configuration and an empty draw
stream. -/
theorem c1_witness :
    ∃ st : PipelineState,
      (execute_pipeline default_config []).1 = Except.ok st ∧
      run default_config [] = Except.ok st.final ∧
      st.final.value = 0.6 * st.level2.task4_result.value
        + 0.4 * st.level2.task5_result.value ∧
      st.level2.task4_result.value
        = st.level1.task1_result.value + st.level1.task2_result.value ∧
      st.level2.task5_result.value
        = (st.level1.task1_result.value + st.level1.task2_result.value
            + st.level1.task3_result.value) / 3 :=
  c1_clean_run_weighted_final default_config [] rfl rfl rfl rfl rfl rfl rfl

/-- C2: whenever the failure injector signals a task to fail, the task
returns its task-specific error: Task1 a DataValidation error, Task2 a
ResourceExhaustion error, Task3 a generic TaskExecution error, Task4 a
DataValidation error, Task5 a ResourceExhaustion error, Task6 a generic
TaskExecution error, each with its fixed descriptive reason naming the
simulated cause. -/
theorem c2_injected_failures_typed (config : FailureConfig) (gen : Rand)
    (lv1 : Level1Results) (lv2 : Level2Results) :
    ((check_failure config.task1_fail config gen).1 = true →
      (Task1.execute config gen).1 = Except.error
        (DataValidationError "Task1" "DataSourceA contains corrupted records")) ∧
    ((check_failure config.task2_fail config gen).1 = true →
      (Task2.execute config gen).1 = Except.error
        (ResourceExhaustionError "Task2" "Database connection pool exhausted")) ∧
    ((check_failure config.task3_fail config gen).1 = true →
      (Task3.execute config gen).1 = Except.error
        (TaskExecutionError "Task3" "Network timeout while fetching external API data")) ∧
    ((check_failure config.task4_fail config gen).1 = true →
      (Task4.execute lv1 config gen).1 = Except.error
        (DataValidationError "Task4"
          "Result validation failed - combined value out of expected range")) ∧
    ((check_failure config.task5_fail config gen).1 = true →
      (Task5.execute lv1 config gen).1 = Except.error
        (ResourceExhaustionError "Task5" "Insufficient memory for aggregation operation")) ∧
    ((check_failure config.task6_fail config gen).1 = true →
      (Task6.execute lv2 config gen).1 = Except.error
        (TaskExecutionError "Task6" "Final validation failed - output format incompatible")) ∧
    (DataValidationError "Task1" "DataSourceA contains corrupted records").kind
      = ErrorKind.DataValidation ∧
    (ResourceExhaustionError "Task2" "Database connection pool exhausted").kind
      = ErrorKind.ResourceExhaustion ∧
    (TaskExecutionError "Task3" "Network timeout while fetching external API data").kind
      = ErrorKind.TaskExecution ∧
    (DataValidationError "Task4"
        "Result validation failed - combined value out of expected range").kind
      = ErrorKind.DataValidation ∧
    (ResourceExhaustionError "Task5" "Insufficient memory for aggregation operation").kind
      = ErrorKind.ResourceExhaustion ∧
    (TaskExecutionError "Task6" "Final validation failed - output format incompatible").kind
      = ErrorKind.TaskExecution := by
  refine ⟨?_, ?_, ?_, ?_, ?_, ?_, rfl, rfl, rfl, rfl, rfl, rfl⟩ <;> intro h <;>
    simp [Task1.execute, Task2.execute, Task3.execute, Task4.execute,
      Task5.execute, Task6.execute, h]

/-- The configuration that forces every task to fail. -/
def all_fail_config : FailureConfig :=
  ⟨true, true, true, true, true, true, false, 0.2⟩

/-- An arbitrary Level-1 snapshot used to witness Level-2 task calls. -/
def sample_level1 : Level1Results :=
  ⟨⟨1, "", ""⟩, ⟨1, "", ""⟩, ⟨1, "", ""⟩⟩

/-- An arbitrary Level-2 snapshot used to witness Task6 calls. -/
def sample_level2 : Level2Results :=
  ⟨⟨1, "", ""⟩, ⟨1, "", ""⟩⟩

/-- Witness for C2: with every forced flag set, each task's injector
check fires and the task returns its specific error. -/
theorem c2_witness :
    (Task1.execute all_fail_config []).1 = Except.error
      (DataValidationError "Task1" "DataSourceA contains corrupted records") ∧
    (Task2.execute all_fail_config []).1 = Except.error
      (ResourceExhaustionError "Task2" "Database connection pool exhausted") ∧
    (Task3.execute all_fail_config []).1 = Except.error
      (TaskExecutionError "Task3" "Network timeout while fetching external API data") ∧
    (Task4.execute sample_level1 all_fail_config []).1 = Except.error
      (DataValidationError "Task4"
        "Result validation failed - combined value out of expected range") ∧
    (Task5.execute sample_level1 all_fail_config []).1 = Except.error
      (ResourceExhaustionError "Task5" "Insufficient memory for aggregation operation") ∧
    (Task6.execute sample_level2 all_fail_config []).1 = Except.error
      (TaskExecutionError "Task6" "Final validation failed - output format incompatible") :=
  ⟨(c2_injected_failures_typed all_fail_config [] sample_level1 sample_level2).1 rfl,
   (c2_injected_failures_typed all_fail_config [] sample_level1 sample_level2).2.1 rfl,
   (c2_injected_failures_typed all_fail_config [] sample_level1 sample_level2).2.2.1 rfl,
   (c2_injected_failures_typed all_fail_config [] sample_level1 sample_level2).2.2.2.1 rfl,
   (c2_injected_failures_typed all_fail_config [] sample_level1 sample_level2).2.2.2.2.1 rfl,
   (c2_injected_failures_typed all_fail_config [] sample_level1 sample_level2).2.2.2.2.2.1 rfl⟩

/-- C3: forcing only Task2 to fail (random failures disabled) makes
`run()` fail with the Task2 ResourceExhaustion error, and none of
Task4, Task5 or Task6 is ever submitted to the scheduler. -/
theorem c3_forced_task2_stops_pipeline (config : FailureConfig) (gen : Rand)
    (h1 : config.task1_fail = false) (h2 : config.task2_fail = true)
    (h3 : config.task3_fail = false)
    (hr : config.enable_random_failures = false) :
    run config gen = Except.error
      (ResourceExhaustionError "Task2" "Database connection pool exhausted") ∧
    (ResourceExhaustionError "Task2" "Database connection pool exhausted").task_name
      = "Task2" ∧
    (ResourceExhaustionError "Task2" "Database connection pool exhausted").kind
      = ErrorKind.ResourceExhaustion ∧
    "Task4" ∉ (execute_pipeline config gen).2.2 ∧
    "Task5" ∉ (execute_pipeline config gen).2.2 ∧
    "Task6" ∉ (execute_pipeline config gen).2.2 := by
  have hp : execute_pipeline config gen =
      (Except.error (ResourceExhaustionError "Task2" "Database connection pool exhausted"),
       gen, level1_task_names) := by
    simp [execute_pipeline, execute_level1, Task1.execute, Task2.execute, Task3.execute,
      joinLevel1, check_failure, h1, h2, h3, hr]
  refine ⟨?_, rfl, rfl, ?_, ?_, ?_⟩ <;> simp [run, hp, Except.map, level1_task_names]

/-- Witness for C3 at the concrete configuration forcing only Task2. -/
theorem c3_witness :
    run ⟨false, true, false, false, false, false, false, 0.2⟩ [] = Except.error
      (ResourceExhaustionError "Task2" "Database connection pool exhausted") ∧
    (ResourceExhaustionError "Task2" "Database connection pool exhausted").task_name
      = "Task2" ∧
    (ResourceExhaustionError "Task2" "Database connection pool exhausted").kind
      = ErrorKind.ResourceExhaustion ∧
    "Task4" ∉ (execute_pipeline ⟨false, true, false, false, false, false, false, 0.2⟩ []).2.2 ∧
    "Task5" ∉ (execute_pipeline ⟨false, true, false, false, false, false, false, 0.2⟩ []).2.2 ∧
    "Task6" ∉ (execute_pipeline ⟨false, true, false, false, false, false, false, 0.2⟩ []).2.2 :=
  c3_forced_task2_stops_pipeline ⟨false, true, false, false, false, false, false, 0.2⟩ []
    rfl rfl rfl rfl

/-- C6: the failure injector signals failure exactly when the task's
forced-failure flag is set in the configuration, or random failures are
enabled and the next uniform draw is strictly below the configured
failure probability. -/
theorem c6_should_fail_iff (task_name : String) (config : FailureConfig) (gen : Rand) :
    (should_fail task_name config gen).1 = true ↔
      (forced_failure_contains config task_name = true ∨
        (config.enable_random_failures = true ∧
          (nextDraw gen).1 < config.failure_probability)) := by
  by_cases hf : forced_failure_contains config task_name = true
  · simp [should_fail, check_failure, hf]
  · rw [Bool.not_eq_true] at hf
    by_cases hr : config.enable_random_failures = true
    · simp [should_fail, check_failure, hf, hr]
    · rw [Bool.not_eq_true] at hr
      simp [should_fail, check_failure, hf, hr]

/-- Witness for C6: a forced Task2 makes the injector fire on the name
"Task2" with no random draw involved. -/
theorem c6_witness :
    (should_fail "Task2" ⟨false, true, false, false, false, false, false, 0.2⟩ []).1 = true ↔
      (forced_failure_contains ⟨false, true, false, false, false, false, false, 0.2⟩ "Task2"
          = true ∨
        ((⟨false, true, false, false, false, false, false, 0.2⟩ : FailureConfig).enable_random_failures
            = true ∧
          (nextDraw []).1
            < (⟨false, true, false, false, false, false, false, 0.2⟩ : FailureConfig).failure_probability)) :=
  c6_should_fail_iff "Task2" ⟨false, true, false, false, false, false, false, 0.2⟩ []

/-- C10: when a task's forced flag is set, or when random failures are
disabled, the failure check consumes no draw and leaves the shared
generator state unchanged, so forcing one task's failure does not
perturb the draws seen by other tasks. -/
theorem c10_no_draw_consumed (flag : Bool) (config : FailureConfig) (gen : Rand)
    (h : flag = true ∨ config.enable_random_failures = false) :
    (check_failure flag config gen).2 = gen := by
  rcases h with h | h
  · simp [check_failure, h]
  · cases flag <;> simp [check_failure, h]

/-- Witness for C10: a forced failure with a pending draw leaves the
draw in place. -/
theorem c10_witness :
    (check_failure true default_config [3/4]).2 = ([3/4] : Rand) :=
  c10_no_draw_consumed true default_config [3/4] (Or.inl rfl)

lemma joinLevel1_ok_iff (r1 r2 r3 : Except TaskError TaskResult) :
    (∃ r, joinLevel1 r1 r2 r3 = Except.ok r) ↔
      ((∃ a, r1 = Except.ok a) ∧ (∃ b, r2 = Except.ok b) ∧ (∃ c, r3 = Except.ok c)) := by
  rcases r1 with e1 | a <;> rcases r2 with e2 | b <;> rcases r3 with e3 | c <;>
    simp [joinLevel1]

lemma joinLevel2_ok_iff (r4 r5 : Except TaskError TaskResult) :
    (∃ r, joinLevel2 r4 r5 = Except.ok r) ↔
      ((∃ a, r4 = Except.ok a) ∧ (∃ b, r5 = Except.ok b)) := by
  rcases r4 with e4 | a <;> rcases r5 with e5 | b <;> simp [joinLevel2]

/-- C4: for every configuration and draw stream, a level's aggregate
result exists if and only if every task of that level completed without
error, and once a level has failed no task of a later level is
submitted: a Level-1 failure keeps Task4, Task5 and Task6 out of the
submission list, and a Level-2 failure keeps Task6 out.  (Level 3's
aggregate is Task6's own result, so its case is definitional.) -/
theorem c4_aggregate_iff_no_later_submission (config : FailureConfig) (gen : Rand) :
    ((∃ r, (execute_level1 config gen).1 = Except.ok r) ↔
      ((∃ a, (Task1.execute config gen).1 = Except.ok a) ∧
       (∃ b, (Task2.execute config (Task1.execute config gen).2).1 = Except.ok b) ∧
       (∃ c, (Task3.execute config
           (Task2.execute config (Task1.execute config gen).2).2).1 = Except.ok c))) ∧
    (∀ (lv1 : Level1Results) (g : Rand),
      (∃ r, (execute_level2 lv1 config g).1 = Except.ok r) ↔
        ((∃ a, (Task4.execute lv1 config g).1 = Except.ok a) ∧
         (∃ b, (Task5.execute lv1 config (Task4.execute lv1 config g).2).1
             = Except.ok b))) ∧
    (∀ e : TaskError, (execute_level1 config gen).1 = Except.error e →
      "Task4" ∉ (execute_pipeline config gen).2.2 ∧
      "Task5" ∉ (execute_pipeline config gen).2.2 ∧
      "Task6" ∉ (execute_pipeline config gen).2.2) ∧
    (∀ (lv1 : Level1Results) (e : TaskError),
      (execute_level1 config gen).1 = Except.ok lv1 →
      (execute_level2 lv1 config (execute_level1 config gen).2).1 = Except.error e →
      "Task6" ∉ (execute_pipeline config gen).2.2) := by
  refine ⟨?_, ?_, ?_, ?_⟩
  · simpa [execute_level1] using
      joinLevel1_ok_iff (Task1.execute config gen).1
        (Task2.execute config (Task1.execute config gen).2).1
        (Task3.execute config (Task2.execute config (Task1.execute config gen).2).2).1
  · intro lv1 g
    simpa [execute_level2] using
      joinLevel2_ok_iff (Task4.execute lv1 config g).1
        (Task5.execute lv1 config (Task4.execute lv1 config g).2).1
  · intro e he
    refine ⟨?_, ?_, ?_⟩ <;> simp [execute_pipeline, he, level1_task_names]
  · intro lv1 e hok herr
    simp [execute_pipeline, hok, herr, level1_task_names, level2_task_names]

/-- Witness for C4 at the configuration that forces every task to fail
and an empty draw stream. -/
theorem c4_witness :
    ((∃ r, (execute_level1 all_fail_config []).1 = Except.ok r) ↔
      ((∃ a, (Task1.execute all_fail_config []).1 = Except.ok a) ∧
       (∃ b, (Task2.execute all_fail_config
           (Task1.execute all_fail_config []).2).1 = Except.ok b) ∧
       (∃ c, (Task3.execute all_fail_config
           (Task2.execute all_fail_config
             (Task1.execute all_fail_config []).2).2).1 = Except.ok c))) ∧
    (∀ (lv1 : Level1Results) (g : Rand),
      (∃ r, (execute_level2 lv1 all_fail_config g).1 = Except.ok r) ↔
        ((∃ a, (Task4.execute lv1 all_fail_config g).1 = Except.ok a) ∧
         (∃ b, (Task5.execute lv1 all_fail_config
             (Task4.execute lv1 all_fail_config g).2).1 = Except.ok b))) ∧
    (∀ e : TaskError, (execute_level1 all_fail_config []).1 = Except.error e →
      "Task4" ∉ (execute_pipeline all_fail_config []).2.2 ∧
      "Task5" ∉ (execute_pipeline all_fail_config []).2.2 ∧
      "Task6" ∉ (execute_pipeline all_fail_config []).2.2) ∧
    (∀ (lv1 : Level1Results) (e : TaskError),
      (execute_level1 all_fail_config []).1 = Except.ok lv1 →
      (execute_level2 lv1 all_fail_config
          (execute_level1 all_fail_config []).2).1 = Except.error e →
      "Task6" ∉ (execute_pipeline all_fail_config []).2.2) :=
  c4_aggregate_iff_no_later_submission all_fail_config []

/-- C8 counterexample: the failure-free run's final value is exactly
14563/150 = 97.08666..., which is not within any rounding tolerance of
the claimed 97.6867 (the difference exceeds 0.6). -/
theorem c8_counterexample :
    runFinalValue default_config [] = some (14563/150) ∧
    ¬ |(14563 : ℚ)/150 - 97.6867| ≤ 1/100 := by
  constructor
  · have hp := execute_pipeline_clean default_config [] rfl rfl rfl rfl rfl rfl rfl
    simp only [runFinalValue, hp]
    norm_num [clean_run_state]
  · rw [not_le, lt_abs]
    right
    norm_num

/-- C8 amended: in the failure-free run Task1 produces 42.5, Task2
73.2 and Task3 91.8, so Task4 = 115.7, Task5 = 415/6 = 69.1667 (within
rounding) and the final Task6 value is
115.7*0.6 + (415/6)*0.4 = 14563/150 = 97.0867 (within rounding). -/
theorem c8_amended_concrete_values :
    ∃ st : PipelineState,
      (execute_pipeline default_config []).1 = Except.ok st ∧
      st.level1.task1_result.value = 42.5 ∧
      st.level1.task2_result.value = 73.2 ∧
      st.level1.task3_result.value = 91.8 ∧
      st.level2.task4_result.value = 115.7 ∧
      st.level2.task5_result.value = 415/6 ∧
      |st.level2.task5_result.value - 69.1667| ≤ 1/10000 ∧
      st.final.value = 14563/150 ∧
      |st.final.value - 97.0867| ≤ 1/10000 := by
  have hp := execute_pipeline_clean default_config [] rfl rfl rfl rfl rfl rfl rfl
  refine ⟨clean_run_state, by rw [hp], ?_, ?_, ?_, ?_, ?_, ?_, ?_, ?_⟩ <;>
    norm_num [clean_run_state, abs_le]

end TaskDag

namespace FlexDag

/-- A Level-1 snapshot of the type-flexible variant holding the given
payloads in the alternatives the three Level-1 tasks produce. -/
def mk_level1 (v1 : ℚ) (v2 : String) (v3 : Int) : Level1Results :=
  ⟨⟨FlexValue.d v1, "DataSourceA", "Primary data repository"⟩,
   ⟨FlexValue.s v2, "DataSourceB", "Secondary data warehouse"⟩,
   ⟨FlexValue.i v3, "DataSourceC", "External API endpoint"⟩⟩

/-- A Level-2 snapshot of the type-flexible variant holding the given
double payloads. -/
def mk_level2 (v4 v5 : ℚ) : Level2Results :=
  ⟨⟨FlexValue.d v4, "CombinedAB", ""⟩, ⟨FlexValue.d v5, "AggregatedABC", ""⟩⟩

/-- C5 counterexample: a numeric upstream value of exactly 0 does make
Task4 fail and the 0 boundary is on the failing side, but the error is
the type-flexible variant's only exception class — the base
TaskExecutionError, i.e. the Generic/TaskExecution kind — not a
DataValidation-kind error as the claim states. -/
theorem c5_counterexample :
    Task4.execute (mk_level1 0 "PROCESSED_DATA_B_73.2" 91) =
      Except.error (FlexFailure.err ⟨"Task4", "Invalid numeric input from Task1"⟩) ∧
    FlexTaskError.kind ⟨"Task4", "Invalid numeric input from Task1"⟩
      ≠ TaskDag.ErrorKind.DataValidation := by
  constructor
  · simp [Task4.execute, mk_level1, get_double, get_string]
  · simp [FlexTaskError.kind]

/-- C5 amended: every task whose numeric upstream input is less than
or equal to 0 (the boundary 0 included), or whose text input is empty,
fails with the generic TaskExecution-kind error (the variant's base
TaskExecutionError class) whose reason cites the invalid upstream
input, rather than propagating the bad value downstream. -/
theorem c5_amended_validation (level1 : Level1Results) (level2 : Level2Results)
    (v1 : ℚ) (v2 : String) (v3 : Int) (v4 v5 : ℚ)
    (e1 : get_double level1.task1_result = some v1)
    (e2 : get_string level1.task2_result = some v2)
    (e3 : get_int level1.task3_result = some v3)
    (e4 : get_double level2.task4_result = some v4)
    (e5 : get_double level2.task5_result = some v5) :
    (v1 ≤ 0 → Task4.execute level1 =
      Except.error (FlexFailure.err ⟨"Task4", "Invalid numeric input from Task1"⟩)) ∧
    (0 < v1 → v2.isEmpty = true → Task4.execute level1 =
      Except.error (FlexFailure.err ⟨"Task4", "Invalid string input from Task2"⟩)) ∧
    (v1 ≤ 0 ∨ v3 ≤ 0 → Task5.execute level1 =
      Except.error (FlexFailure.err ⟨"Task5", "Invalid numeric inputs for aggregation"⟩)) ∧
    (0 < v1 → 0 < v3 → v2.isEmpty = true → Task5.execute level1 =
      Except.error (FlexFailure.err ⟨"Task5", "Invalid string input for aggregation"⟩)) ∧
    (v4 ≤ 0 ∨ v5 ≤ 0 → Task6.execute level2 =
      Except.error (FlexFailure.err ⟨"Task6", "Invalid input values for final computation"⟩)) ∧
    FlexTaskError.kind ⟨"Task4", "Invalid numeric input from Task1"⟩
      = TaskDag.ErrorKind.TaskExecution ∧
    FlexTaskError.kind ⟨"Task5", "Invalid numeric inputs for aggregation"⟩
      = TaskDag.ErrorKind.TaskExecution ∧
    FlexTaskError.kind ⟨"Task6", "Invalid input values for final computation"⟩
      = TaskDag.ErrorKind.TaskExecution := by
  refine ⟨?_, ?_, ?_, ?_, ?_, rfl, rfl, rfl⟩
  · intro h
    simp [Task4.execute, e1, e2, h]
  · intro h h2
    simp [Task4.execute, e1, e2, not_le.mpr h, h2]
  · intro h
    simp [Task5.execute, e1, e2, e3, h]
  · intro hv1 hv3 h2
    simp [Task5.execute, e1, e2, e3, not_le.mpr hv1, not_le.mpr hv3, h2]
  · intro h
    simp [Task6.execute, e4, e5, h]

/-- Witness for C5: all five validation branches fire at concrete
inputs on the failure side of the boundary. -/
theorem c5_witness :
    Task4.execute (mk_level1 0 "PROCESSED_DATA_B_73.2" 91) =
      Except.error (FlexFailure.err ⟨"Task4", "Invalid numeric input from Task1"⟩) ∧
    Task5.execute (mk_level1 0 "PROCESSED_DATA_B_73.2" 91) =
      Except.error (FlexFailure.err ⟨"Task5", "Invalid numeric inputs for aggregation"⟩) ∧
    Task4.execute (mk_level1 42.5 "" 91) =
      Except.error (FlexFailure.err ⟨"Task4", "Invalid string input from Task2"⟩) ∧
    Task5.execute (mk_level1 42.5 "" 91) =
      Except.error (FlexFailure.err ⟨"Task5", "Invalid string input for aggregation"⟩) ∧
    Task6.execute (mk_level2 0 69.1) =
      Except.error (FlexFailure.err ⟨"Task6", "Invalid input values for final computation"⟩) := by
  refine ⟨?_, ?_, ?_, ?_, ?_⟩
  · exact (c5_amended_validation (mk_level1 0 "PROCESSED_DATA_B_73.2" 91) (mk_level2 1 1)
      0 "PROCESSED_DATA_B_73.2" 91 1 1 rfl rfl rfl rfl rfl).1 le_rfl
  · exact (c5_amended_validation (mk_level1 0 "PROCESSED_DATA_B_73.2" 91) (mk_level2 1 1)
      0 "PROCESSED_DATA_B_73.2" 91 1 1 rfl rfl rfl rfl rfl).2.2.1 (Or.inl le_rfl)
  · exact (c5_amended_validation (mk_level1 42.5 "" 91) (mk_level2 1 1)
      42.5 "" 91 1 1 rfl rfl rfl rfl rfl).2.1 (by norm_num) rfl
  · exact (c5_amended_validation (mk_level1 42.5 "" 91) (mk_level2 1 1)
      42.5 "" 91 1 1 rfl rfl rfl rfl rfl).2.2.2.1 (by norm_num) (by norm_num) rfl
  · exact (c5_amended_validation (mk_level1 1 "x" 1) (mk_level2 0 69.1)
      1 "x" 1 0 69.1 rfl rfl rfl rfl rfl).2.2.2.2.1 (Or.inl le_rfl)

end FlexDag
